import Mathlib

/-!
Shallow embedding of the two HTTP services of the photography_server
repository:

* `deepface_server.py` — analyze / verify / batch-verify / detect endpoints
  wrapping the DeepFace library, and
* `src/config/face_matching.py` — face-encoding extraction and
  one-against-many matching wrapping the face_recognition library.

Python floats are modelled as `ℚ` (the handlers only copy, subtract from 1,
compare and divide them).  The opaque ML capabilities (DeepFace.verify,
DeepFace.analyze, face_recognition distances) and the network / image
decoding are modelled as explicit parameters: an `Except String _` value is
the outcome of the corresponding Python call inside the handler's `try`
block (`.error msg` means the call raised an exception whose `str` is
`msg`).  FastAPI's `HTTPException(status, detail)` becomes the
`HTTPException` structure below; a handler returns
`Except HTTPException Resp`, `.error` being an HTTP error response and
`.ok` a JSON success body.  `str(HTTPException(c, d))` in the sources is
rendered as `"c: d"` (Starlette's `__str__`), which matters because
several handlers re-catch their own `HTTPException`s.
Wall-clock values (`time.time()` differences) are passed in as parameters.
-/

namespace PhotographyServer

/-- FastAPI/Starlette HTTPException: status code plus detail string. -/
structure HTTPException where
  status : Nat
  detail : String

/-- Python `needle in haystack` substring test on strings. -/
def strContains (haystack needle : String) : Bool :=
  decide (needle.data <:+: haystack.data)

/-- Resolution of the `image` file / `image_url` form fields of a request:
a file upload (with its load outcome), a URL (with its fetch outcome), or
neither provided.  The load outcome is `.ok ()` when the bytes decode to an
image and `.error e` when `load_image_from_file` / `load_image_from_url`
raised an exception with message `e` inside their own try blocks. -/
inductive ImageInput where
  | file (r : Except String Unit)
  | url (r : Except String Unit)
  | missing

/-- The image-loading prelude shared by the handlers: `if image: ... elif
image_url: ... else: raise HTTPException(400, missingDetail)`.  The two
loader helpers wrap their failures in `HTTPException(400, ...)`; since all
of these are raised inside the handler's try block, what propagates is the
string form `"400: <detail>"` of the exception. -/
def loadImage (missingDetail : String) : ImageInput → Except String Unit
  | .file (.ok _) => .ok ()
  | .file (.error e) => .error ("400: Failed to load image: " ++ e)
  | .url (.ok _) => .ok ()
  | .url (.error e) => .error ("400: Failed to load image from URL: " ++ e)
  | .missing => .error ("400: " ++ missingDetail)

namespace DeepfaceServer

def AVAILABLE_MODELS : List String :=
  ["VGG-Face", "Facenet", "OpenFace", "DeepFace", "DeepID", "ArcFace"]

def AVAILABLE_DETECTORS : List String :=
  ["opencv", "ssd", "mtcnn", "dlib", "retinaface"]

def AVAILABLE_METRICS : List String :=
  ["cosine", "euclidean", "euclidean_l2"]

/-- The substring the except-branches look for to recognize the
distinguished DeepFace "no face" failure. -/
def noFaceMarker : String := "Face could not be detected"

/-- Outcome of a successful `DeepFace.verify` call, after the `.get`
defaulting the handler applies (`verified` → False, `distance` → 1.0,
`threshold` → 0.4).  The pass-through `facial_areas` dict is not modelled
(no claim touches it). -/
structure DFVerifyResult where
  verified : Bool
  distance : ℚ
  threshold : ℚ

/-- One face entry of the `/api/analyze` response, after the handler's
`.get` defaulting.  Distribution dicts become association lists. -/
structure FaceRecord where
  x : Int
  y : Int
  w : Int
  h : Int
  confidence : ℚ
  emotion : String
  emotions : List (String × ℚ)
  age : Int
  gender : String
  gender_distribution : List (String × ℚ)
  race : String
  race_distribution : List (String × ℚ)

/-- JSON body of a successful `/api/analyze` response. -/
structure AnalyzeResponse where
  success : Bool
  faces : List FaceRecord
  face_count : Nat
  detector : String
  message : Option String
  analysis_time : ℚ

/-- The try-block of `/api/analyze`: load the image, run
`DeepFace.analyze`, serialize.  `analysis` is the outcome of the
`DeepFace.analyze` call: a list of per-face dicts, a single dict (the
non-list branch of the source), or a raised exception. -/
def analyzeTry (image : ImageInput)
    (analysis : Except String (Sum (List FaceRecord) FaceRecord))
    (detector : String) (now : ℚ) : Except String AnalyzeResponse :=
  match loadImage "Either image file or image_url must be provided" image with
  | .error e => .error e
  | .ok _ =>
    match analysis with
    | .error e => .error e
    | .ok (.inl fs) =>
        .ok { success := true, faces := fs, face_count := fs.length,
              detector := detector, message := none, analysis_time := now }
    | .ok (.inr f) =>
        .ok { success := true, faces := [f], face_count := 1,
              detector := detector, message := none, analysis_time := now }

/-- `POST /api/analyze`.  `enforce_detection` is forwarded to the opaque
capability only (its effect is inside the `analysis` parameter). -/
def analyze_faces (available : Bool) (image : ImageInput) (detector : String)
    (enforce_detection : Bool)
    (analysis : Except String (Sum (List FaceRecord) FaceRecord)) (now : ℚ) :
    Except HTTPException AnalyzeResponse :=
  if ¬ available then .error ⟨503, "DeepFace not available"⟩
  else if detector ∉ AVAILABLE_DETECTORS then
    .error ⟨400, "Invalid detector. Available: " ++ toString AVAILABLE_DETECTORS⟩
  else
    match analyzeTry image analysis detector now with
    | .ok r => .ok r
    | .error msg =>
      if strContains msg noFaceMarker then
        .ok { success := true, faces := [], face_count := 0, detector := detector,
              message := some "No faces detected in the image", analysis_time := now }
      else .error ⟨500, "Analysis failed: " ++ msg⟩

/-- JSON body of a successful `/api/verify` response.  The no-face branch
of the source omits `threshold` and `processing_time` and adds `message`,
hence the `Option` fields.  The pass-through `analysis.img1_face` /
`img2_face` dicts are not modelled. -/
structure VerifyResponse where
  success : Bool
  verified : Bool
  distance : ℚ
  similarity : ℚ
  threshold : Option ℚ
  model : String
  detector : String
  metrics : String
  processing_time : Option ℚ
  message : Option String

/-- The try-block of `/api/verify`: load both images, call
`DeepFace.verify` (outcome `dfv`), serialize. -/
def verifyTry (img1 img2 : ImageInput) (dfv : Except String DFVerifyResult)
    (model detector metrics : String) (processing_time : ℚ) :
    Except String VerifyResponse :=
  match loadImage "First image must be provided" img1 with
  | .error e => .error e
  | .ok _ =>
  match loadImage "Second image must be provided" img2 with
  | .error e => .error e
  | .ok _ =>
  match dfv with
  | .error e => .error e
  | .ok r =>
      .ok { success := true, verified := r.verified, distance := r.distance,
            similarity := 1 - r.distance, threshold := some r.threshold,
            model := model, detector := detector, metrics := metrics,
            processing_time := some processing_time, message := none }

/-- `POST /api/verify`. -/
def verify_faces (available : Bool) (img1 img2 : ImageInput)
    (model detector metrics : String) (enforce_detection : Bool)
    (dfv : Except String DFVerifyResult) (processing_time : ℚ) :
    Except HTTPException VerifyResponse :=
  if ¬ available then .error ⟨503, "DeepFace not available"⟩
  else if model ∉ AVAILABLE_MODELS then
    .error ⟨400, "Invalid model. Available: " ++ toString AVAILABLE_MODELS⟩
  else if detector ∉ AVAILABLE_DETECTORS then
    .error ⟨400, "Invalid detector. Available: " ++ toString AVAILABLE_DETECTORS⟩
  else if metrics ∉ AVAILABLE_METRICS then
    .error ⟨400, "Invalid metric. Available: " ++ toString AVAILABLE_METRICS⟩
  else
    match verifyTry img1 img2 dfv model detector metrics processing_time with
    | .ok r => .ok r
    | .error msg =>
      if strContains msg noFaceMarker then
        .ok { success := true, verified := false, distance := 1, similarity := 0,
              threshold := none, model := model, detector := detector,
              metrics := metrics, processing_time := none,
              message := some "Face could not be detected in one or both images" }
      else .error ⟨500, "Verification failed: " ++ msg⟩

/-- One entry of the `/api/batch-verify` results list.  The JSON key of
`match_flag` is `"match"` (a Lean keyword). -/
structure BatchItem where
  url : String
  verified : Bool
  distance : ℚ
  similarity : ℚ
  match_flag : Bool
  error : Option String

/-- The `summary` object of the `/api/batch-verify` response.  The JSON
key of `matches_count` is `"matches"` (a Lean keyword). -/
structure BatchSummary where
  total_images : Nat
  matches_count : Nat
  match_rate : ℚ
  processing_time : ℚ
  avg_time_per_image : ℚ

/-- JSON body of a successful `/api/batch-verify` response. -/
structure BatchResponse where
  success : Bool
  results : List BatchItem
  summary : BatchSummary
  model : String
  detector : String
  metrics : String
  threshold : ℚ

/-- Outcome of `json.loads(image_urls)` plus the list check: the parse
raised, parsed to a non-list value, or parsed to a list of URLs. -/
inductive JsonParse where
  | malformed (e : String)
  | notAList
  | list (urls : List String)

/-- The body of one iteration of the candidate loop of
`/api/batch-verify`:  `cmp i url` is the combined outcome of
`load_image_from_url(url)` followed by `DeepFace.verify` for the `i`-th
candidate (indexed so that duplicate URLs keep independent outcomes, as
each iteration performs its own fetch).  On any exception the loop appends
the error entry and continues. -/
def processCandidate (cmp : Nat → String → Except String DFVerifyResult)
    (threshold : ℚ) (i : Nat) (url : String) : BatchItem :=
  match cmp i url with
  | .ok r =>
      { url := url, verified := decide (1 - r.distance > threshold),
        distance := r.distance, similarity := 1 - r.distance,
        match_flag := r.verified, error := none }
  | .error e =>
      { url := url, verified := false, distance := 1, similarity := 0,
        match_flag := false, error := some e }

/-- The full candidate loop: one entry per URL, in input order. -/
def batchResults (cmp : Nat → String → Except String DFVerifyResult)
    (threshold : ℚ) (urls : List String) : List BatchItem :=
  urls.enum.map (fun p => processCandidate cmp threshold p.1 p.2)

/-- The `summary` computation of `/api/batch-verify`:
`matches = len([r for r in results if r.get("verified")])`, with the
Python-truthiness division guards (`... if urls else 0`). -/
def mkSummary (results : List BatchItem) (total : Nat) (pt : ℚ) : BatchSummary :=
  { total_images := total
    matches_count := (results.filter (fun r => r.verified)).length
    match_rate :=
      if total = 0 then 0
      else ((results.filter (fun r => r.verified)).length : ℚ) / (total : ℚ)
    processing_time := pt
    avg_time_per_image := if total = 0 then 0 else pt / (total : ℚ) }

/-- The try-block of `/api/batch-verify`: load the target, parse
`image_urls`, run the loop, build the summary.  The two
`HTTPException(400, ...)`s raised here are inside the try block, so they
propagate as their string forms. -/
def batchTry (targetLoad : Except String Unit) (parsed : JsonParse)
    (cmp : Nat → String → Except String DFVerifyResult)
    (model detector metrics : String) (threshold : ℚ) (pt : ℚ) :
    Except String BatchResponse :=
  match targetLoad with
  | .error e => .error ("400: Failed to load image: " ++ e)
  | .ok _ =>
    match parsed with
    | .malformed e => .error e
    | .notAList => .error "400: image_urls must be a JSON array"
    | .list urls =>
      .ok { success := true
            results := batchResults cmp threshold urls
            summary := mkSummary (batchResults cmp threshold urls) urls.length pt
            model := model, detector := detector, metrics := metrics,
            threshold := threshold }

/-- `POST /api/batch-verify`.  Note: the source performs no validation of
`model`, `detector` or `metrics` on this endpoint. -/
def batch_verify (available : Bool) (targetLoad : Except String Unit)
    (parsed : JsonParse) (cmp : Nat → String → Except String DFVerifyResult)
    (model detector metrics : String) (threshold : ℚ) (pt : ℚ) :
    Except HTTPException BatchResponse :=
  if ¬ available then .error ⟨503, "DeepFace not available"⟩
  else
    match batchTry targetLoad parsed cmp model detector metrics threshold pt with
    | .ok r => .ok r
    | .error msg => .error ⟨500, "Batch verification failed: " ++ msg⟩

/-- One element of the `faces` list handed back by
`detection.extract_faces`, as the `/api/detect` handler inspects it: a bare
numpy array (with its height and width), a dict holding a `face` array, or
anything else (skipped by the handler). -/
inductive FaceObj where
  | arr (h w : Nat)
  | dictFace (h w : Nat)
  | other

/-- The region-extraction loop of `/api/detect`: entries are
`(width, height)` pairs; unrecognized face objects are dropped. -/
def faceRegions : List FaceObj → List (Nat × Nat)
  | [] => []
  | .arr h w :: t => (w, h) :: faceRegions t
  | .dictFace h w :: t => (w, h) :: faceRegions t
  | .other :: t => faceRegions t

/-- JSON body of a successful `/api/detect` response. -/
structure DetectResponse where
  success : Bool
  faces : List (Nat × Nat)
  face_count : Nat
  detector : String
  message : Option String

/-- The try-block of `/api/detect`. -/
def detectTry (image : ImageInput) (det : Except String (List FaceObj))
    (detector : String) : Except String DetectResponse :=
  match loadImage "Either image file or image_url must be provided" image with
  | .error e => .error e
  | .ok _ =>
    match det with
    | .error e => .error e
    | .ok fs =>
        .ok { success := true, faces := faceRegions fs,
              face_count := (faceRegions fs).length, detector := detector,
              message := none }

/-- `POST /api/detect`.  Note: the source performs no validation of
`detector` on this endpoint. -/
def detect_faces (available : Bool) (image : ImageInput) (detector : String)
    (det : Except String (List FaceObj)) : Except HTTPException DetectResponse :=
  if ¬ available then .error ⟨503, "DeepFace not available"⟩
  else
    match detectTry image det detector with
    | .ok r => .ok r
    | .error msg =>
      if strContains msg noFaceMarker then
        .ok { success := true, faces := [], face_count := 0,
              detector := detector, message := some "No faces detected" }
      else .error ⟨500, "Detection failed: " ++ msg⟩

/-- Total projections of a handler outcome, used to state the claims
without existential binders. -/
def batchSuccessOf : Except HTTPException BatchResponse → Bool
  | .ok r => r.success
  | .error _ => false

def batchResultsOf : Except HTTPException BatchResponse → List BatchItem
  | .ok r => r.results
  | .error _ => []

/-- The sortedness predicate the spec asserts of the batch results list:
each adjacent pair is in (weakly) descending similarity order. -/
def sortedBySimDesc : List BatchItem → Bool
  | [] => true
  | [_] => true
  | a :: b :: t => (decide (b.similarity ≤ a.similarity)) && sortedBySimDesc (b :: t)

end DeepfaceServer

namespace FaceMatching

def FACE_MATCH_THRESHOLD : ℚ := 3/5

/-- One event image record handed to `find_matching_faces` (the dict keys
are `_id`, `url`, `originalName`). -/
structure EventImage where
  mongo_id : String
  url : String
  originalName : String

/-- One entry of the matching list built by `find_matching_faces`. -/
structure MatchingImage where
  file_id : String
  file_url : String
  file_name : String
  similarity : ℚ
  confidence : ℚ
  face_distance : ℚ

/-- One iteration of the event-image loop of `find_matching_faces`.
`outcome` summarizes the opaque calls for this image: `.error e` when any
of them raised (the inner except prints and continues), `.ok none` when
`download_image` returned `None`/empty bytes (the `if event_image_bytes:`
guard skips the image), and `.ok (some ds)` the list of face distances of
the image's encodings against the selfie encoding, in encoding order.  The
source appends the first encoding whose similarity `1 - d` reaches
`FACE_MATCH_THRESHOLD` and then breaks. -/
def processEventImage (img : EventImage)
    (outcome : Except String (Option (List ℚ))) : Option MatchingImage :=
  match outcome with
  | .error _ => none
  | .ok none => none
  | .ok (some ds) =>
    (ds.find? (fun d => decide (1 - d ≥ FACE_MATCH_THRESHOLD))).map (fun d =>
      { file_id := img.mongo_id, file_url := img.url,
        file_name := img.originalName, similarity := 1 - d,
        confidence := (1 - d) * 100, face_distance := d })

/-- The comparator of `matching_images.sort(key=lambda x: x['similarity'],
reverse=True)`: `simLE a b` means `a` may stay before `b`. -/
def simLE (a b : MatchingImage) : Bool := decide (b.similarity ≤ a.similarity)

/-- The matching list as collected by the loop, before sorting (indexed
outcomes keep the per-image results independent). -/
def collectMatches (outcomes : Nat → Except String (Option (List ℚ)))
    (event_images : List EventImage) : List MatchingImage :=
  (event_images.enum).filterMap (fun p => processEventImage p.2 (outcomes p.1))

/-- `FaceMatchingService.find_matching_faces`: empty when the selfie has
no detectable face, otherwise the collected matches stable-sorted by
similarity descending (Python's `list.sort` is stable; `List.mergeSort`
models it). -/
def find_matching_faces (selfie_encoding : Option Unit)
    (outcomes : Nat → Except String (Option (List ℚ)))
    (event_images : List EventImage) : List MatchingImage :=
  match selfie_encoding with
  | none => []
  | some _ => (collectMatches outcomes event_images).mergeSort simLE

/-- JSON body of a successful `/api/face-match/compare-faces` response. -/
structure CompareResponse where
  success : Bool
  distance : ℚ
  similarity : ℚ
  match_flag : Bool

/-- `POST /api/face-match/compare-faces`.  `dist` is the outcome of the
numpy conversion plus `face_recognition.face_distance` call. -/
def compare_faces (dist : Except String ℚ) : Except HTTPException CompareResponse :=
  match dist with
  | .error e => .error ⟨500, e⟩
  | .ok d =>
      .ok { success := true, distance := d, similarity := 1 - d,
            match_flag := decide (1 - d ≥ FACE_MATCH_THRESHOLD) }

/-- JSON body of a successful `/api/face-match/extract-encoding` response. -/
structure ExtractResponse where
  success : Bool
  encoding : List ℚ
  encoding_length : Nat

/-- The try-block of `/api/face-match/extract-encoding`: `encoding` is the
value returned by the service method (which itself swallows its exceptions
into `None`).  The `HTTPException(400, "No face detected in image")` is
raised inside the try block, so it propagates as its string form. -/
def extractTry (encoding : Option (List ℚ)) : Except String ExtractResponse :=
  match encoding with
  | none => .error "400: No face detected in image"
  | some enc => .ok { success := true, encoding := enc, encoding_length := enc.length }

/-- `POST /api/face-match/extract-encoding`: the handler's own
`except Exception` turns every escaping exception — including its own
400 — into `HTTPException(500, str(e))`. -/
def extract_face_encoding (encoding : Option (List ℚ)) :
    Except HTTPException ExtractResponse :=
  match extractTry encoding with
  | .ok r => .ok r
  | .error msg => .error ⟨500, msg⟩

end FaceMatching

namespace DeepfaceServer

def batchSummaryOf : Except HTTPException BatchResponse → BatchSummary
  | .ok r => r.summary
  | .error _ => ⟨0, 0, 0, 0, 0⟩

theorem batchResults_length (cmp : Nat → String → Except String DFVerifyResult)
    (th : ℚ) (urls : List String) :
    (batchResults cmp th urls).length = urls.length := by
  simp [batchResults]

theorem batchResults_get (cmp : Nat → String → Except String DFVerifyResult)
    (th : ℚ) (urls : List String) (i : Nat) (hi : i < urls.length)
    (hri : i < (batchResults cmp th urls).length) :
    (batchResults cmp th urls).get ⟨i, hri⟩
      = processCandidate cmp th i (urls.get ⟨i, hi⟩) := by
  simp [batchResults, List.get_eq_getElem, List.getElem_map, List.getElem_enum]

theorem batch_verify_list_eq (cmp : Nat → String → Except String DFVerifyResult)
    (model detector metrics : String) (th pt : ℚ) (urls : List String) :
    batch_verify true (.ok ()) (.list urls) cmp model detector metrics th pt
      = .ok { success := true, results := batchResults cmp th urls,
              summary := mkSummary (batchResults cmp th urls) urls.length pt,
              model := model, detector := detector, metrics := metrics,
              threshold := th } := rfl

theorem processCandidate_error_not_verified
    (cmp : Nat → String → Except String DFVerifyResult) (th : ℚ) (i : Nat)
    (url : String) (h : (processCandidate cmp th i url).error.isSome = true) :
    (processCandidate cmp th i url).verified = false := by
  cases hc : cmp i url <;> simp [processCandidate, hc] at h ⊢

theorem batchSuccessOf_list (cmp : Nat → String → Except String DFVerifyResult)
    (model detector metrics : String) (th pt : ℚ) (urls : List String) :
    batchSuccessOf (batch_verify true (.ok ()) (.list urls) cmp model detector
      metrics th pt) = true := rfl

theorem batchResultsOf_list (cmp : Nat → String → Except String DFVerifyResult)
    (model detector metrics : String) (th pt : ℚ) (urls : List String) :
    batchResultsOf (batch_verify true (.ok ()) (.list urls) cmp model detector
      metrics th pt) = batchResults cmp th urls := rfl

theorem batchSummaryOf_list (cmp : Nat → String → Except String DFVerifyResult)
    (model detector metrics : String) (th pt : ℚ) (urls : List String) :
    batchSummaryOf (batch_verify true (.ok ()) (.list urls) cmp model detector
      metrics th pt) = mkSummary (batchResults cmp th urls) urls.length pt := rfl

theorem processCandidate_url (cmp : Nat → String → Except String DFVerifyResult)
    (th : ℚ) (i : Nat) (url : String) : (processCandidate cmp th i url).url = url := by
  cases hc : cmp i url <;> simp [processCandidate, hc]

theorem processCandidate_sim (cmp : Nat → String → Except String DFVerifyResult)
    (th : ℚ) (i : Nat) (url : String) :
    (processCandidate cmp th i url).similarity
      = 1 - (processCandidate cmp th i url).distance := by
  cases hc : cmp i url
  all_goals simp [processCandidate, hc]

end DeepfaceServer

namespace FaceMatching

theorem simLE_trans (a b c : MatchingImage) (h1 : simLE a b = true)
    (h2 : simLE b c = true) : simLE a c = true := by
  simp only [simLE, decide_eq_true_eq] at h1 h2 ⊢
  exact le_trans h2 h1

theorem simLE_total (a b : MatchingImage) : (simLE a b || simLE b a) = true := by
  simp only [simLE, Bool.or_eq_true, decide_eq_true_eq]
  exact le_total b.similarity a.similarity

end FaceMatching

namespace DeepfaceServer

theorem verifyTry_ok_sim (img1 img2 : ImageInput)
    (dfv : Except String DFVerifyResult) (model detector metrics : String)
    (pt : ℚ) (resp : VerifyResponse)
    (h : verifyTry img1 img2 dfv model detector metrics pt = .ok resp) :
    resp.similarity = 1 - resp.distance := by
  unfold verifyTry at h
  split at h
  · simp at h
  split at h
  · simp at h
  split at h
  · simp at h
  injection h with h2
  rw [← h2]

end DeepfaceServer

open DeepfaceServer FaceMatching

/-- Claim C2: for every batch-verify request with a parseable candidate URL
list, the results list has exactly one entry per input URL (its length is
the input length) no matter how many candidates fail, and each position —
duplicate URLs included — gets its own entry computed from its own fetch
and comparison. -/
theorem batch_one_entry_per_url
    (cmp : Nat → String → Except String DFVerifyResult)
    (model detector metrics : String) (threshold pt : ℚ) (urls : List String) :
    batchSuccessOf (batch_verify true (.ok ()) (.list urls) cmp model detector
        metrics threshold pt) = true ∧
    (batchResultsOf (batch_verify true (.ok ()) (.list urls) cmp model detector
        metrics threshold pt)).length = urls.length ∧
    ∀ i (hi : i < urls.length)
      (hri : i < (batchResultsOf (batch_verify true (.ok ()) (.list urls) cmp
          model detector metrics threshold pt)).length),
      (batchResultsOf (batch_verify true (.ok ()) (.list urls) cmp model
          detector metrics threshold pt)).get ⟨i, hri⟩
        = processCandidate cmp threshold i (urls.get ⟨i, hi⟩) := by
  simp only [batchSuccessOf_list, batchResultsOf_list]
  exact ⟨trivial, batchResults_length cmp threshold urls,
    fun i hi hri => batchResults_get cmp threshold urls i hi hri⟩

/-- Witness for C2 at a concrete request: two copies of the same URL, the
first comparing fine and the second failing, still give one entry each. -/
theorem batch_one_entry_per_url_wit :
    ((0 : Nat) < (["u", "u"] : List String).length) ∧
    (batchResultsOf (batch_verify true (.ok ()) (.list ["u", "u"])
        (fun i _ => if i = 0 then .ok ⟨false, 1, 0⟩ else .error "boom")
        "VGG-Face" "opencv" "cosine" 0 0)).length = (["u", "u"] : List String).length := by
  refine ⟨by decide, ?_⟩
  exact (batch_one_entry_per_url
    (fun i _ => if i = 0 then .ok ⟨false, 1, 0⟩ else .error "boom")
    "VGG-Face" "opencv" "cosine" 0 0 ["u", "u"]).2.1

/-- Claim C3: a candidate whose fetch or comparison raises yields the error
entry with `verified = false`, `similarity = 0` and the reason, the other
candidates are still processed normally, and the batch request as a whole
succeeds (`success = true`) once the target image loaded. -/
theorem batch_failure_isolated
    (cmp : Nat → String → Except String DFVerifyResult)
    (model detector metrics : String) (threshold pt : ℚ) (urls : List String)
    (i : Nat) (e : String) (hi : i < urls.length)
    (hfail : cmp i (urls.get ⟨i, hi⟩) = .error e) :
    batchSuccessOf (batch_verify true (.ok ()) (.list urls) cmp model detector
        metrics threshold pt) = true ∧
    (∀ hri : i < (batchResultsOf (batch_verify true (.ok ()) (.list urls) cmp
        model detector metrics threshold pt)).length,
      (batchResultsOf (batch_verify true (.ok ()) (.list urls) cmp model
          detector metrics threshold pt)).get ⟨i, hri⟩
        = { url := urls.get ⟨i, hi⟩, verified := false, distance := 1,
            similarity := 0, match_flag := false, error := some e }) ∧
    (∀ j (hj : j < urls.length)
      (hrj : j < (batchResultsOf (batch_verify true (.ok ()) (.list urls) cmp
          model detector metrics threshold pt)).length),
      (batchResultsOf (batch_verify true (.ok ()) (.list urls) cmp model
          detector metrics threshold pt)).get ⟨j, hrj⟩
        = processCandidate cmp threshold j (urls.get ⟨j, hj⟩)) := by
  simp only [batchSuccessOf_list, batchResultsOf_list]
  refine ⟨trivial, fun hri => ?_, fun j hj hrj => batchResults_get cmp threshold urls j hj hrj⟩
  rw [batchResults_get cmp threshold urls i hi hri]
  simp only [List.get_eq_getElem] at hfail
  simp [processCandidate, hfail]

/-- Witness for C3: candidate 1 of 2 fails with "boom"; its entry is the
zeroed error entry and the batch still succeeds. -/
theorem batch_failure_isolated_wit :
    ((fun i (_ : String) => if i = 0 then (.ok ⟨false, 1, 0⟩ : Except String DFVerifyResult) else .error "boom") 1
        ((["u", "v"] : List String).get ⟨1, by decide⟩) = .error "boom") ∧
    batchSuccessOf (batch_verify true (.ok ()) (.list ["u", "v"])
        (fun i _ => if i = 0 then .ok ⟨false, 1, 0⟩ else .error "boom")
        "VGG-Face" "opencv" "cosine" 0 0) = true := by
  refine ⟨rfl, ?_⟩
  exact (batch_failure_isolated
    (fun i _ => if i = 0 then .ok ⟨false, 1, 0⟩ else .error "boom")
    "VGG-Face" "opencv" "cosine" 0 0 ["u", "v"] 1 "boom" (by decide) rfl).1

/-- Claim C4: for a successfully compared candidate, `verified` is exactly
the strict comparison of `1 - distance` against the caller-supplied
threshold — independent of the capability's own verdict, which is carried
separately as `match` — and a similarity exactly equal to the threshold
gives `verified = false`. -/
theorem batch_verified_caller_threshold
    (cmp : Nat → String → Except String DFVerifyResult)
    (model detector metrics : String) (threshold pt : ℚ) (urls : List String)
    (i : Nat) (r : DFVerifyResult) (hi : i < urls.length)
    (hok : cmp i (urls.get ⟨i, hi⟩) = .ok r)
    (hri : i < (batchResultsOf (batch_verify true (.ok ()) (.list urls) cmp
        model detector metrics threshold pt)).length) :
    ((batchResultsOf (batch_verify true (.ok ()) (.list urls) cmp model
        detector metrics threshold pt)).get ⟨i, hri⟩).verified
      = decide (1 - r.distance > threshold) ∧
    ((batchResultsOf (batch_verify true (.ok ()) (.list urls) cmp model
        detector metrics threshold pt)).get ⟨i, hri⟩).match_flag = r.verified ∧
    ((batchResultsOf (batch_verify true (.ok ()) (.list urls) cmp model
        detector metrics threshold pt)).get ⟨i, hri⟩).similarity = 1 - r.distance ∧
    (1 - r.distance = threshold →
      ((batchResultsOf (batch_verify true (.ok ()) (.list urls) cmp model
          detector metrics threshold pt)).get ⟨i, hri⟩).verified = false) := by
  simp only [batchResultsOf_list] at hri ⊢
  rw [batchResults_get cmp threshold urls i hi hri]
  simp only [List.get_eq_getElem] at hok
  refine ⟨by simp [processCandidate, hok], by simp [processCandidate, hok],
    by simp [processCandidate, hok], fun heq => ?_⟩
  simp [processCandidate, hok, heq]

/-- Witness for C4: a candidate whose similarity `1 - distance` is exactly
the threshold (distance 1, threshold 0) comes back `verified = false` with
the capability's own `True` verdict carried in `match`. -/
theorem batch_verified_caller_threshold_wit :
    ((fun (_ : Nat) (_ : String) => (.ok ⟨true, 1, 0⟩ : Except String DFVerifyResult)) 0
        ((["u"] : List String).get ⟨0, by decide⟩) = .ok ⟨true, 1, 0⟩) ∧
    ((1 : ℚ) - (1 : ℚ) = 0) ∧
    ((batchResultsOf (batch_verify true (.ok ()) (.list ["u"])
        (fun _ _ => .ok ⟨true, 1, 0⟩) "VGG-Face" "opencv" "cosine" 0 0)).get
        ⟨0, by decide⟩).verified = false ∧
    ((batchResultsOf (batch_verify true (.ok ()) (.list ["u"])
        (fun _ _ => .ok ⟨true, 1, 0⟩) "VGG-Face" "opencv" "cosine" 0 0)).get
        ⟨0, by decide⟩).match_flag = true := by
  have h := batch_verified_caller_threshold (fun _ _ => .ok ⟨true, 1, 0⟩)
    "VGG-Face" "opencv" "cosine" 0 0 ["u"] 0 ⟨true, 1, 0⟩ (by decide) rfl (by decide)
  exact ⟨rfl, by norm_num, h.2.2.2 (by norm_num), h.2.1⟩

/-- Claim C5: the batch summary counts `matches` as the entries with
`verified = true` (error entries therefore excluded, though still counted
in `total_images`), `match_rate` is `matches / total_images` and
`avg_time_per_image` is `processing_time / total_images` when the
candidate list is nonempty, both are `0` for an empty list with no
division error, and `match_rate` always lies in `[0, 1]`. -/
theorem batch_summary_correct
    (cmp : Nat → String → Except String DFVerifyResult)
    (model detector metrics : String) (threshold pt : ℚ) (urls : List String) :
    (batchSummaryOf (batch_verify true (.ok ()) (.list urls) cmp model detector
        metrics threshold pt)).total_images = urls.length ∧
    (batchSummaryOf (batch_verify true (.ok ()) (.list urls) cmp model detector
        metrics threshold pt)).matches_count
      = ((batchResultsOf (batch_verify true (.ok ()) (.list urls) cmp model
          detector metrics threshold pt)).filter (fun r => r.verified)).length ∧
    (∀ r ∈ batchResultsOf (batch_verify true (.ok ()) (.list urls) cmp model
        detector metrics threshold pt), r.error.isSome = true → r.verified = false) ∧
    (urls ≠ [] →
      (batchSummaryOf (batch_verify true (.ok ()) (.list urls) cmp model
          detector metrics threshold pt)).match_rate
        = ((batchSummaryOf (batch_verify true (.ok ()) (.list urls) cmp model
            detector metrics threshold pt)).matches_count : ℚ)
          / ((batchSummaryOf (batch_verify true (.ok ()) (.list urls) cmp model
            detector metrics threshold pt)).total_images : ℚ) ∧
      (batchSummaryOf (batch_verify true (.ok ()) (.list urls) cmp model
          detector metrics threshold pt)).avg_time_per_image
        = (batchSummaryOf (batch_verify true (.ok ()) (.list urls) cmp model
            detector metrics threshold pt)).processing_time
          / ((batchSummaryOf (batch_verify true (.ok ()) (.list urls) cmp model
            detector metrics threshold pt)).total_images : ℚ)) ∧
    (urls = [] →
      (batchSummaryOf (batch_verify true (.ok ()) (.list urls) cmp model
          detector metrics threshold pt)).match_rate = 0 ∧
      (batchSummaryOf (batch_verify true (.ok ()) (.list urls) cmp model
          detector metrics threshold pt)).avg_time_per_image = 0) ∧
    0 ≤ (batchSummaryOf (batch_verify true (.ok ()) (.list urls) cmp model
        detector metrics threshold pt)).match_rate ∧
    (batchSummaryOf (batch_verify true (.ok ()) (.list urls) cmp model detector
        metrics threshold pt)).match_rate ≤ 1 := by
  simp only [batchSummaryOf_list, batchResultsOf_list]
  have hm : ((batchResults cmp threshold urls).filter (fun r => r.verified)).length
      ≤ urls.length := by
    calc ((batchResults cmp threshold urls).filter (fun r => r.verified)).length
        ≤ (batchResults cmp threshold urls).length := List.length_filter_le _ _
      _ = urls.length := batchResults_length cmp threshold urls
  refine ⟨rfl, rfl, ?_, fun hne => ?_, fun he => ?_, ?_, ?_⟩
  · intro r hr herr
    simp only [batchResultsOf, batchResults] at hr
    obtain ⟨p, hp, hpr⟩ := List.mem_map.1 hr
    exact hpr ▸ processCandidate_error_not_verified cmp threshold p.1 p.2 (hpr ▸ herr)
  · have hz : urls.length ≠ 0 := by simpa [List.length_eq_zero] using hne
    constructor <;> simp [mkSummary, batchSummaryOf, hz]
  · subst he
    constructor <;> simp [mkSummary, batchSummaryOf]
  · by_cases hz : urls.length = 0 <;>
      simp [mkSummary, batchSummaryOf, hz] <;> positivity
  · by_cases hz : urls.length = 0
    · simp [mkSummary, batchSummaryOf, hz]
    · have hpos : (0 : ℚ) < (urls.length : ℚ) := by
        exact_mod_cast Nat.pos_of_ne_zero hz
      simp only [mkSummary, batchSummaryOf, hz, if_false]
      rw [div_le_one hpos]
      exact_mod_cast hm

/-- Witness for C5 at a concrete nonempty batch: one verified entry and
one error entry out of two give `match_rate = 1/2`. -/
theorem batch_summary_correct_wit :
    ((["u", "v"] : List String) ≠ []) ∧
    (batchSummaryOf (batch_verify true (.ok ()) (.list ["u", "v"])
        (fun i _ => if i = 0 then .ok ⟨false, 0, 0⟩ else .error "boom")
        "VGG-Face" "opencv" "cosine" 0 6)).match_rate
      = ((batchSummaryOf (batch_verify true (.ok ()) (.list ["u", "v"])
          (fun i _ => if i = 0 then .ok ⟨false, 0, 0⟩ else .error "boom")
          "VGG-Face" "opencv" "cosine" 0 6)).matches_count : ℚ)
        / ((batchSummaryOf (batch_verify true (.ok ()) (.list ["u", "v"])
          (fun i _ => if i = 0 then .ok ⟨false, 0, 0⟩ else .error "boom")
          "VGG-Face" "opencv" "cosine" 0 6)).total_images : ℚ) := by
  refine ⟨by decide, ?_⟩
  exact ((batch_summary_correct
    (fun i _ => if i = 0 then .ok ⟨false, 0, 0⟩ else .error "boom")
    "VGG-Face" "opencv" "cosine" 0 6 ["u", "v"]).2.2.2.1 (by decide)).1

/-- Claim C1 as stated is false at a concrete request: `/api/batch-verify`
never sorts its results list.  With candidate similarities 0 (first) and 1
(second), the returned list is not in descending-similarity order. -/
theorem batchVerify_results_unsorted_cex :
    sortedBySimDesc (batchResultsOf (batch_verify true (.ok ()) (.list ["a", "b"])
        (fun i _ => if i = 0 then .ok ⟨false, 1, 0⟩ else .ok ⟨false, 0, 0⟩)
        "VGG-Face" "opencv" "cosine" 0 0)) = false := by
  have h : batchResultsOf (batch_verify true (.ok ()) (.list ["a", "b"])
      (fun i _ => if i = 0 then .ok ⟨false, 1, 0⟩ else .ok ⟨false, 0, 0⟩)
      "VGG-Face" "opencv" "cosine" 0 0)
      = [{ url := "a", verified := decide ((1:ℚ) - 1 > 0), distance := 1,
           similarity := 1 - 1, match_flag := false, error := none },
         { url := "b", verified := decide ((1:ℚ) - 0 > 0), distance := 0,
           similarity := 1 - 0, match_flag := false, error := none }] := rfl
  rw [h]
  simp only [sortedBySimDesc, Bool.and_eq_false_imp, decide_eq_false_iff_not]
  norm_num

/-- Claim C1, amended to what the code does: `/api/batch-verify` returns
its results in the original candidate order (it applies no sort at all),
while `FaceMatchingService.find_matching_faces` does return its matching
list stable-sorted by similarity descending — it is sorted, and candidates
of equal similarity keep the order in which the loop collected them. -/
theorem batch_input_order_and_matching_sorted
    (cmp : Nat → String → Except String DFVerifyResult)
    (model detector metrics : String) (threshold pt : ℚ) (urls : List String)
    (selfie : Option Unit) (outcomes : Nat → Except String (Option (List ℚ)))
    (event_images : List EventImage) :
    (batchResultsOf (batch_verify true (.ok ()) (.list urls) cmp model detector
        metrics threshold pt)).map (fun r => r.url) = urls ∧
    List.Pairwise (fun a b : MatchingImage => b.similarity ≤ a.similarity)
      (find_matching_faces selfie outcomes event_images) ∧
    (∀ a b : MatchingImage, a.similarity = b.similarity →
      List.Sublist [a, b] (collectMatches outcomes event_images) →
      List.Sublist [a, b] (find_matching_faces (some ()) outcomes event_images)) := by
  refine ⟨?_, ?_, ?_⟩
  · simp only [batchResultsOf_list, batchResults, List.map_map]
    have h1 : ∀ p ∈ urls.enum,
        ((fun r : BatchItem => r.url) ∘ fun p : Nat × String =>
          processCandidate cmp threshold p.1 p.2) p = p.2 := by
      intro p _
      simp [processCandidate_url]
    rw [List.map_congr_left h1, List.enum_map_snd]
  · cases selfie with
    | none => simp [find_matching_faces]
    | some u =>
      have hs := List.sorted_mergeSort simLE_trans simLE_total
        (collectMatches outcomes event_images)
      exact hs.imp (fun h => by simpa [simLE] using h)
  · intro a b hab hsub
    have hle : simLE a b = true := by simp [simLE, hab]
    exact List.mergeSort_stable_pair simLE_trans simLE_total hle hsub

/-- Witness for the amended C1: two event images matching with the same
distance 0 give two equal-similarity entries whose input order survives
the sort. -/
theorem batch_input_order_and_matching_sorted_wit :
    (({ file_id := "i1", file_url := "u1", file_name := "n1",
        similarity := (1:ℚ) - 0, confidence := ((1:ℚ) - 0) * 100,
        face_distance := 0 } : MatchingImage).similarity
      = ({ file_id := "i2", file_url := "u2", file_name := "n2",
           similarity := (1:ℚ) - 0, confidence := ((1:ℚ) - 0) * 100,
           face_distance := 0 } : MatchingImage).similarity) ∧
    List.Sublist
      [{ file_id := "i1", file_url := "u1", file_name := "n1",
         similarity := (1:ℚ) - 0, confidence := ((1:ℚ) - 0) * 100,
         face_distance := 0 },
       { file_id := "i2", file_url := "u2", file_name := "n2",
         similarity := (1:ℚ) - 0, confidence := ((1:ℚ) - 0) * 100,
         face_distance := 0 }]
      (collectMatches (fun _ => .ok (some [0]))
        [⟨"i1", "u1", "n1"⟩, ⟨"i2", "u2", "n2"⟩]) ∧
    List.Sublist
      [{ file_id := "i1", file_url := "u1", file_name := "n1",
         similarity := (1:ℚ) - 0, confidence := ((1:ℚ) - 0) * 100,
         face_distance := 0 },
       { file_id := "i2", file_url := "u2", file_name := "n2",
         similarity := (1:ℚ) - 0, confidence := ((1:ℚ) - 0) * 100,
         face_distance := 0 }]
      (find_matching_faces (some ()) (fun _ => .ok (some [0]))
        [⟨"i1", "u1", "n1"⟩, ⟨"i2", "u2", "n2"⟩]) := by
  have hcoll : collectMatches (fun _ => .ok (some [0]))
      [⟨"i1", "u1", "n1"⟩, ⟨"i2", "u2", "n2"⟩]
      = [{ file_id := "i1", file_url := "u1", file_name := "n1",
           similarity := (1:ℚ) - 0, confidence := ((1:ℚ) - 0) * 100,
           face_distance := 0 },
         { file_id := "i2", file_url := "u2", file_name := "n2",
           similarity := (1:ℚ) - 0, confidence := ((1:ℚ) - 0) * 100,
           face_distance := 0 }] := by
    simp only [collectMatches, processEventImage, List.enum, FACE_MATCH_THRESHOLD]
    norm_num [List.find?]
    simp [List.filterMap]
  have hsub : List.Sublist
      [{ file_id := "i1", file_url := "u1", file_name := "n1",
         similarity := (1:ℚ) - 0, confidence := ((1:ℚ) - 0) * 100,
         face_distance := 0 },
       { file_id := "i2", file_url := "u2", file_name := "n2",
         similarity := (1:ℚ) - 0, confidence := ((1:ℚ) - 0) * 100,
         face_distance := 0 }]
      (collectMatches (fun _ => .ok (some [0]))
        [⟨"i1", "u1", "n1"⟩, ⟨"i2", "u2", "n2"⟩]) := by
    rw [hcoll]
  exact ⟨rfl, hsub,
    (batch_input_order_and_matching_sorted (fun _ _ => .error "x") "VGG-Face"
      "opencv" "cosine" 0 0 [] (some ()) (fun _ => .ok (some [0]))
      [⟨"i1", "u1", "n1"⟩, ⟨"i2", "u2", "n2"⟩]).2.2 _ _ rfl hsub⟩

/-- Claim C6: in every response that reports both fields — the `/api/verify`
outcomes (normal and no-face), every `/api/batch-verify` result entry
(error entries included), and `/api/face-match/compare-faces` — the
reported similarity is exactly `1 - distance`, whatever the distance
metric string is. -/
theorem similarity_one_minus_distance
    (img1 img2 : ImageInput) (model detector metrics : String)
    (enf : Bool) (dfv : Except String DFVerifyResult) (pt : ℚ)
    (available avail2 : Bool) (targetLoad : Except String Unit)
    (parsed : JsonParse) (cmp : Nat → String → Except String DFVerifyResult)
    (model2 detector2 metrics2 : String) (th pt2 : ℚ)
    (dist : Except String ℚ) :
    (∀ resp : VerifyResponse,
      verify_faces available img1 img2 model detector metrics enf dfv pt
        = .ok resp →
      resp.similarity = 1 - resp.distance) ∧
    (∀ r ∈ batchResultsOf (batch_verify avail2 targetLoad parsed cmp model2
        detector2 metrics2 th pt2), r.similarity = 1 - r.distance) ∧
    (∀ cresp : CompareResponse, compare_faces dist = .ok cresp →
      cresp.similarity = 1 - cresp.distance) := by
  refine ⟨?_, ?_, ?_⟩
  · intro resp h
    unfold verify_faces at h
    split at h
    · simp at h
    split at h
    · simp at h
    split at h
    · simp at h
    split at h
    · simp at h
    split at h
    next r0 heq =>
      injection h with h2
      subst h2
      exact verifyTry_ok_sim _ _ _ _ _ _ _ _ heq
    next msg heq =>
      split at h
      · injection h with h2
        rw [← h2]
        norm_num
      · simp at h
  · intro r hr
    cases avail2 with
    | false => simp [batch_verify, batchResultsOf] at hr
    | true =>
      cases targetLoad with
      | error e => simp [batch_verify, batchTry, batchResultsOf] at hr
      | ok u =>
        cases u
        cases parsed with
        | malformed e => simp [batch_verify, batchTry, batchResultsOf] at hr
        | notAList => simp [batch_verify, batchTry, batchResultsOf] at hr
        | list urls =>
          rw [batchResultsOf_list] at hr
          simp only [batchResults] at hr
          obtain ⟨p, _, hpr⟩ := List.mem_map.1 hr
          rw [← hpr]
          exact processCandidate_sim cmp th p.1 p.2
  · intro cresp h
    cases dist with
    | error e => simp [compare_faces] at h
    | ok d =>
      injection h with h2
      rw [← h2]

/-- Witness for C6 at concrete inputs: a verify call with distance 1, a
batch whose single candidate fails (error entry: similarity 0, distance 1),
and a compare-faces call with distance 0. -/
theorem similarity_one_minus_distance_wit :
    (verify_faces true (.file (.ok ())) (.file (.ok ())) "VGG-Face" "opencv"
        "cosine" false (.ok ⟨true, 1, 0⟩) 0
      = .ok { success := true, verified := true, distance := 1,
              similarity := 1 - 1, threshold := some 0, model := "VGG-Face",
              detector := "opencv", metrics := "cosine",
              processing_time := some 0, message := none }) ∧
    ((1:ℚ) - 1 = 1 - 1) ∧
    (({ url := "u", verified := false, distance := 1, similarity := 0,
        match_flag := false, error := some "boom" } : BatchItem)
      ∈ batchResultsOf (batch_verify true (.ok ()) (.list ["u"])
          (fun _ _ => .error "boom") "VGG-Face" "opencv" "cosine" 0 0)) ∧
    ((0:ℚ) = 1 - 1) ∧
    (compare_faces (.ok (0:ℚ))
      = .ok { success := true, distance := 0, similarity := 1 - 0,
              match_flag := decide ((1:ℚ) - 0 ≥ FACE_MATCH_THRESHOLD) }) ∧
    ((1:ℚ) - 0 = 1 - 0) := by
  have hthm := similarity_one_minus_distance (.file (.ok ())) (.file (.ok ()))
    "VGG-Face" "opencv" "cosine" false (.ok ⟨true, 1, 0⟩) 0 true true (.ok ())
    (.list ["u"]) (fun _ _ => .error "boom") "VGG-Face" "opencv" "cosine" 0 0
    (.ok 0)
  have hmem : ({ url := "u", verified := false, distance := 1,
                 similarity := 0, match_flag := false,
                 error := some "boom" } : BatchItem)
      ∈ batchResultsOf (batch_verify true (.ok ()) (.list ["u"])
          (fun _ _ => .error "boom") "VGG-Face" "opencv" "cosine" 0 0) :=
    List.mem_singleton_self _
  exact ⟨rfl, hthm.1 _ rfl, hmem, hthm.2.1 _ hmem, rfl, hthm.2.2 _ rfl⟩

/-- Claim C7: when the capability signals the distinguished
no-face-detected condition (an exception whose message contains
`"Face could not be detected"`, which is how DeepFace reports it under
`enforce_detection=True`), `/api/analyze` and `/api/detect` return a
success response with `face_count = 0` and an empty faces list, and
`/api/verify` returns a success response with `verified = false`,
`similarity = 0.0`, `distance = 1.0` and a human-readable message — never
an HTTP-level error — for every value of `enforce_detection`. -/
theorem no_face_success_responses
    (msg : String) (hmsg : strContains msg noFaceMarker = true)
    (detector : String) (hdet : detector ∈ AVAILABLE_DETECTORS)
    (model : String) (hmod : model ∈ AVAILABLE_MODELS)
    (metrics : String) (hmet : metrics ∈ AVAILABLE_METRICS)
    (image img1 img2 : ImageInput) (enf enf2 : Bool) (now pt : ℚ)
    (himg : loadImage "Either image file or image_url must be provided" image
      = .ok ())
    (h1 : loadImage "First image must be provided" img1 = .ok ())
    (h2 : loadImage "Second image must be provided" img2 = .ok ()) :
    analyze_faces true image detector enf (.error msg) now
      = .ok { success := true, faces := [], face_count := 0,
              detector := detector,
              message := some "No faces detected in the image",
              analysis_time := now } ∧
    detect_faces true image detector (.error msg)
      = .ok { success := true, faces := [], face_count := 0,
              detector := detector, message := some "No faces detected" } ∧
    verify_faces true img1 img2 model detector metrics enf2 (.error msg) pt
      = .ok { success := true, verified := false, distance := 1,
              similarity := 0, threshold := none, model := model,
              detector := detector, metrics := metrics,
              processing_time := none,
              message := some "Face could not be detected in one or both images" } := by
  refine ⟨?_, ?_, ?_⟩
  · simp [analyze_faces, analyzeTry, himg, hmsg, hdet]
  · simp [detect_faces, detectTry, himg, hmsg]
  · simp [verify_faces, verifyTry, h1, h2, hmsg, hmod, hdet, hmet]

/-- Witness for C7: the exact DeepFace marker message with valid parameter
names and successfully loading images. -/
theorem no_face_success_responses_wit :
    (strContains noFaceMarker noFaceMarker = true) ∧
    ("opencv" ∈ AVAILABLE_DETECTORS) ∧
    analyze_faces true (.file (.ok ())) "opencv" true (.error noFaceMarker) 0
      = .ok { success := true, faces := [], face_count := 0,
              detector := "opencv",
              message := some "No faces detected in the image",
              analysis_time := 0 } ∧
    verify_faces true (.file (.ok ())) (.url (.ok ())) "VGG-Face" "opencv"
        "cosine" true (.error noFaceMarker) 0
      = .ok { success := true, verified := false, distance := 1,
              similarity := 0, threshold := none, model := "VGG-Face",
              detector := "opencv", metrics := "cosine",
              processing_time := none,
              message := some "Face could not be detected in one or both images" } := by
  have h := no_face_success_responses noFaceMarker (by decide) "opencv"
    (by decide) "VGG-Face" (by decide) "cosine" (by decide) (.file (.ok ()))
    (.file (.ok ())) (.url (.ok ())) true true 0 0 rfl rfl rfl
  exact ⟨by decide, by decide, h.1, h.2.2⟩

/-- Claim C8 as stated is false at a concrete request: `/api/batch-verify`
accepts a model parameter and performs no validation on it — with the
invalid model name `"NotAModel"` the request still succeeds instead of
returning HTTP 400. -/
theorem batchVerify_accepts_invalid_model_cex :
    ("NotAModel" ∉ AVAILABLE_MODELS) ∧
    batchSuccessOf (batch_verify true (.ok ()) (.list ["u"])
        (fun _ _ => .error "invalid model") "NotAModel" "opencv" "cosine" 0 0)
      = true := ⟨by decide, rfl⟩

/-- Claim C8, amended to what the code does: only `/api/analyze` (its
`detector`) and `/api/verify` (its `model`, `detector` and `metrics`)
validate these parameters — there an out-of-list value yields HTTP 400
whose message carries the allowed values, with no image loading or
embedding attempted (the response is the same for every image input and
capability outcome, universally quantified here) — while
`/api/batch-verify` and `/api/detect` perform no such validation and
proceed with whatever strings they were given. -/
theorem validation_only_on_analyze_verify
    (model detector metrics baddet badmod badmet : String)
    (hbd : baddet ∉ AVAILABLE_DETECTORS) (hbm : badmod ∉ AVAILABLE_MODELS)
    (hbmet : badmet ∉ AVAILABLE_METRICS)
    (hm : model ∈ AVAILABLE_MODELS) (hd : detector ∈ AVAILABLE_DETECTORS)
    (image img1 img2 : ImageInput) (enf enf2 : Bool)
    (analysis : Except String (Sum (List FaceRecord) FaceRecord))
    (dfv : Except String DFVerifyResult) (now pt : ℚ)
    (cmp : Nat → String → Except String DFVerifyResult) (th pt2 : ℚ)
    (fs : List FaceObj) (urls : List String) :
    analyze_faces true image baddet enf analysis now
      = .error ⟨400, "Invalid detector. Available: "
          ++ toString AVAILABLE_DETECTORS⟩ ∧
    verify_faces true img1 img2 badmod detector metrics enf2 dfv pt
      = .error ⟨400, "Invalid model. Available: " ++ toString AVAILABLE_MODELS⟩ ∧
    verify_faces true img1 img2 model baddet metrics enf2 dfv pt
      = .error ⟨400, "Invalid detector. Available: "
          ++ toString AVAILABLE_DETECTORS⟩ ∧
    verify_faces true img1 img2 model detector badmet enf2 dfv pt
      = .error ⟨400, "Invalid metric. Available: "
          ++ toString AVAILABLE_METRICS⟩ ∧
    batchSuccessOf (batch_verify true (.ok ()) (.list urls) cmp badmod baddet
        badmet th pt2) = true ∧
    detect_faces true (.file (.ok ())) baddet (.ok fs)
      = .ok { success := true, faces := faceRegions fs,
              face_count := (faceRegions fs).length, detector := baddet,
              message := none } := by
  refine ⟨?_, ?_, ?_, ?_, ?_, ?_⟩
  · simp [analyze_faces, hbd]
  · simp [verify_faces, hbm]
  · simp [verify_faces, hm, hbd]
  · simp [verify_faces, hm, hd, hbmet]
  · exact batchSuccessOf_list cmp badmod baddet badmet th pt2 urls
  · simp [detect_faces, detectTry, loadImage]

/-- Witness for the amended C8 with concrete invalid strings. -/
theorem validation_only_on_analyze_verify_wit :
    ("NotADetector" ∉ AVAILABLE_DETECTORS) ∧
    ("NotAModel2" ∉ AVAILABLE_MODELS) ∧
    ("NotAMetric" ∉ AVAILABLE_METRICS) ∧
    analyze_faces true .missing "NotADetector" true (.error "x") 0
      = .error ⟨400, "Invalid detector. Available: "
          ++ toString AVAILABLE_DETECTORS⟩ ∧
    verify_faces true .missing .missing "NotAModel2" "opencv" "cosine" false
        (.error "x") 0
      = .error ⟨400, "Invalid model. Available: " ++ toString AVAILABLE_MODELS⟩ := by
  have h := validation_only_on_analyze_verify "VGG-Face" "opencv" "cosine"
    "NotADetector" "NotAModel2" "NotAMetric" (by decide) (by decide) (by decide)
    (by decide) (by decide) .missing .missing .missing true false (.error "x")
    (.error "x") 0 0 (fun _ _ => .error "x") 0 0 [] []
  exact ⟨by decide, by decide, by decide, h.1, h.2.1⟩

/-- Claim C9 names the intended behaviour, but the code disagrees: the
`HTTPException(400, ...)` for a missing required image input is raised
inside each handler's try block, caught by its own `except Exception`, and
re-raised as `HTTPException(500, ...)` — so `/api/analyze` and
`/api/verify` answer such requests with HTTP 500, not 400. -/
theorem missing_image_gives_500
    (analysis : Except String (Sum (List FaceRecord) FaceRecord))
    (dfv : Except String DFVerifyResult) (enf enf2 : Bool) (now pt : ℚ)
    (img2 : ImageInput) :
    analyze_faces true .missing "opencv" enf analysis now
      = .error ⟨500,
          "Analysis failed: 400: Either image file or image_url must be provided"⟩ ∧
    verify_faces true .missing img2 "VGG-Face" "opencv" "cosine" enf2 dfv pt
      = .error ⟨500, "Verification failed: 400: First image must be provided"⟩ ∧
    verify_faces true (.file (.ok ())) .missing "VGG-Face" "opencv" "cosine"
        enf2 dfv pt
      = .error ⟨500, "Verification failed: 400: Second image must be provided"⟩ := by
  have ha : strContains "400: Either image file or image_url must be provided"
      noFaceMarker = false := by decide
  have hv1 : strContains "400: First image must be provided" noFaceMarker
      = false := by decide
  have hv2 : strContains "400: Second image must be provided" noFaceMarker
      = false := by decide
  have hm : "VGG-Face" ∈ AVAILABLE_MODELS := by decide
  have hd : "opencv" ∈ AVAILABLE_DETECTORS := by decide
  have hmet : "cosine" ∈ AVAILABLE_METRICS := by decide
  refine ⟨?_, ?_, ?_⟩
  · simp [analyze_faces, analyzeTry, loadImage, ha, hd]
  · simp [verify_faces, verifyTry, loadImage, hv1, hm, hd, hmet]
  · simp [verify_faces, verifyTry, loadImage, hv2, hm, hd, hmet]

/-- Claim C10: a call to `/api/face-match/extract-encoding` with an image
in which no face is detected answers HTTP 500, not 400 — the handler's own
`except Exception` catches the `HTTPException(400, "No face detected in
image")` raised in its try block and re-raises it as
`HTTPException(500, str(e))`. -/
theorem extract_encoding_no_face_gives_500 :
    FaceMatching.extract_face_encoding none
      = .error ⟨500, "400: No face detected in image"⟩ ∧ (500 : Nat) ≠ 400 :=
  ⟨rfl, by decide⟩

end PhotographyServer
